import Mathlib

set_option maxRecDepth 100000

/-!
Verification of the gotham-seat-lookup admin dashboard.

The development shallowly embeds the repository's query builders and
result post-processors:

* `src/lib/db.ts` — the `query` helper, `searchPayments` (parameterized
  query-text builder) and `searchPaymentsByNameOrEmail` (fixed payment
  query + in-memory attendee enrichment);
* `src/app/dashboard/page.tsx` — the client-side past/today/future date
  bucketing and CSV export;
* the playground page (unnamed source, `processFromForm`,
  `processZipCodesFromData`, `exportToCSV`) — the form filter-to-SQL
  builder and the ZIP-code enrichment loop.

JavaScript-specific behaviour (truthiness of `0`, `""`, `null`,
`parseInt` returning `NaN`, `Array.prototype.join`, `String.split`,
`Date` day normalization) is modelled by explicit executable functions.
-/

/-! ## JavaScript semantics helpers -/

/-- JS truthiness of an optional number field: `undefined` and `0` are falsy. -/
def truthyNat (o : Option Nat) : Bool := !(o.getD 0 == 0)

/-- JS truthiness of an optional string field: `undefined` and `""` are falsy. -/
def truthyStr (o : Option String) : Bool := !(o.getD "" == "")

/-- JS truthiness of a plain string value: `""` is falsy. -/
def truthyS (s : String) : Bool := !(s == "")

/-- JS truthiness of an optional numeric (possibly negative) value. -/
def truthyInt (o : Option Int) : Bool := !(o.getD 0 == 0)

/-- Executable contiguous-occurrence test on char lists: `segIn needle hay`
is true when `needle` occurs as a contiguous segment of `hay`.  Embeds
JS `String.prototype.includes`. -/
def segIn (needle : List Char) : List Char → Bool
  | [] => needle.isPrefixOf []
  | c :: rest => needle.isPrefixOf (c :: rest) || segIn needle rest

/-- JS `a.includes(b)` on strings. -/
def jsIncludes (s sub : String) : Bool := segIn sub.data s.data

/-- JS `Array.prototype.join(sep)`. -/
def jsJoin (sep : String) : List String → String
  | [] => ""
  | [x] => x
  | x :: y :: tl => x ++ sep ++ jsJoin sep (y :: tl)

/-- JS `[...new Set(xs)]`: deduplicate keeping first occurrences. -/
def jsSetDedup (xs : List Nat) : List Nat :=
  xs.foldl (fun acc x => if x ∈ acc then acc else acc ++ [x]) []

/-- Decimal value of a digit-character list. -/
def digitsToNat (cs : List Char) : Nat :=
  cs.foldl (fun acc c => acc * 10 + (c.toNat - 48)) 0

/-- JS `parseInt` on a char list: skip leading whitespace, optional sign,
parse the leading run of decimal digits; `none` models `NaN`. -/
def parseIntL (cs : List Char) : Option Int :=
  let cs := cs.dropWhile (fun c => c.isWhitespace)
  match cs with
  | '-' :: rest =>
    let ds := rest.takeWhile (fun c => c.isDigit)
    if ds.isEmpty then none else some (-(digitsToNat ds : Int))
  | '+' :: rest =>
    let ds := rest.takeWhile (fun c => c.isDigit)
    if ds.isEmpty then none else some ((digitsToNat ds : Int))
  | _ =>
    let ds := cs.takeWhile (fun c => c.isDigit)
    if ds.isEmpty then none else some ((digitsToNat ds : Int))

/-- JS `parseInt` on a string. -/
def parseIntJs (s : String) : Option Int := parseIntL s.data

/-- JS `String.prototype.split("/")` on a char list. -/
def splitSlash : List Char → List (List Char)
  | [] => [[]]
  | c :: rest =>
    if c = '/' then [] :: splitSlash rest
    else
      match splitSlash rest with
      | [] => [[c]]
      | g :: gs => (c :: g) :: gs

/-- Day count of a civil date (`m` is 1-based, `d` may lie outside the
month and is normalized as an offset), Hinnant's days-from-civil
algorithm over mathematical integers. -/
def daysFromCivil (y : Int) (m : Int) (d : Int) : Int :=
  let y := if m ≤ 2 then y - 1 else y
  let era := y.fdiv 400
  let yoe := y - era * 400
  let mp := (m + 9).emod 12
  let doy := (153 * mp + 2).fdiv 5 + (d - 1)
  let doe := yoe * 365 + yoe.fdiv 4 - yoe.fdiv 100 + doy
  era * 146097 + doe - 719468

/-- ECMAScript `MakeDay(year, monthIndex, date)`: the month index is
normalized into the year, the date is a day offset. This is the day
value of `new Date(year, monthIndex, date)` after `setHours(0,0,0,0)`. -/
def jsMakeDay (year monthIndex date : Int) : Int :=
  daysFromCivil (year + monthIndex.fdiv 12) (monthIndex.emod 12 + 1) date

/-! ## Data model of src/lib/db.ts -/

/-- Row of the `payments` table, restricted to the columns the
seat-lookup query selects. -/
structure PaymentRow where
  id : Nat
  amount : Int
  created_at : Nat
  event_id : Nat
  event_attendee_id : Option Nat
deriving DecidableEq, Repr

/-- Row of the `events` table (columns used by the joins). -/
structure EventRow where
  id : Nat
  user_id : Nat
deriving DecidableEq, Repr

/-- Row of the `event_attendees` table (columns used by the batch fetch). -/
structure AttendeeRow where
  id : Nat
  first_name : String
  last_name : String
deriving DecidableEq, Repr

/-- The read-only database the queries run against. -/
structure Db where
  payments : List PaymentRow
  events : List EventRow
  attendees : List AttendeeRow
deriving DecidableEq, Repr

/-- Shape `SeatLookupResult` of src/lib/db.ts (the dashboard's interface adds
the optional `seatInfo` field; both are covered by this one shape). -/
structure SeatLookupResult where
  eventName : String
  eventStartDate : String
  eventStartTime : String
  paymentId : Nat
  amount : Int
  payerName : Option String
  payerEmail : Option String
  seatInfo : Option String := none
  transactionId : Option String
deriving DecidableEq, Repr

/-- ORDER BY p.created_at DESC comparison. -/
def createdDesc (a b : PaymentRow) : Prop := b.created_at ≤ a.created_at

instance : DecidableRel createdDesc :=
  fun a b => inferInstanceAs (Decidable (b.created_at ≤ a.created_at))

instance : IsTotal PaymentRow createdDesc :=
  ⟨fun a b => Nat.le_total b.created_at a.created_at⟩

instance : IsTrans PaymentRow createdDesc :=
  ⟨fun _ _ _ h1 h2 => Nat.le_trans h2 h1⟩

/-- Embeds the fixed SQL statement issued by `searchPaymentsByNameOrEmail`
(src/lib/db.ts lines 198-210): `SELECT p.* FROM payments p INNER JOIN
events e ON p.event_id = e.id WHERE e.user_id = $1 ORDER BY p.created_at
DESC LIMIT 100`.  The inner join is a flat map over matching events, the
order clause a sort (any sort realizes SQL's unstable ORDER BY), the
limit a take. -/
def hostPayments (db : Db) (hostUserId : Nat) : List PaymentRow :=
  (List.insertionSort createdDesc (db.payments.flatMap (fun p =>
      (db.events.filter (fun e => e.id == p.event_id && e.user_id == hostUserId)).map
        (fun _ => p)))).take 100

/-- The literal query text sent by `searchPaymentsByNameOrEmail`
(src/lib/db.ts lines 198-210). -/
def seatLookupQueryText : String :=
  "\n    SELECT\n      p.id as payment_id,\n      p.amount,\n      p.created_at,\n      p.event_id,\n      p.event_attendee_id\n    FROM payments p\n    INNER JOIN events e ON p.event_id = e.id\n    WHERE e.user_id = $1\n    ORDER BY p.created_at DESC\n    LIMIT 100\n  "

/-- Embeds the `query` helper of src/lib/db.ts (lines 63-76): run the
underlying call once, return its rows, and on failure log and re-throw
the same error value — no retry, no substitution. -/
def query {ε α : Type} (dbResult : Except ε α) : Except ε α :=
  match dbResult with
  | .ok rows => .ok rows
  | .error e => .error e

/-- Abstract database backend: the outcome of the two parameterized
statements `searchPaymentsByNameOrEmail` can issue. -/
structure Backend (ε : Type) where
  paymentsQuery : Nat → Except ε (List PaymentRow)
  attendeesQuery : List Nat → Except ε (List AttendeeRow)

/-- The backend induced by a concrete database: the payment statement
evaluates to `hostPayments`, the attendee statement to
`SELECT id, first_name, last_name FROM event_attendees WHERE id = ANY($1)`. -/
def Db.backend (db : Db) : Backend Empty where
  paymentsQuery := fun hostUserId => .ok (hostPayments db hostUserId)
  attendeesQuery := fun ids => .ok (db.attendees.filter (fun a => ids.contains a.id))

/-- The row-mapping closure of `searchPaymentsByNameOrEmail`
(src/lib/db.ts lines 241-274), given the batch-fetched attendee rows:
format dates, and derive `payerName` — for a truthy `event_attendee_id`
use the fetched attendee's full name, falling back to the placeholder
`Attendee #<id>` when the id has no entry in the attendee map (the map
keeps the last fetched row per id, as `forEach`+`Map.set` overwrites). -/
def enrichRow (ats : List AttendeeRow) (fmtD fmtT : Nat → String)
    (row : PaymentRow) : SeatLookupResult :=
  let attendeeName : Option String :=
    match row.event_attendee_id with
    | some aid =>
      if aid != 0 then
        match (ats.filter (fun a => a.id == aid)).getLast? with
        | some a => some (a.first_name ++ " " ++ a.last_name)
        | none => some ("Attendee #" ++ toString aid)
      else none
    | none => none
  { eventName := "Event #" ++ toString row.event_id
    eventStartDate := fmtD row.created_at
    eventStartTime := fmtT row.created_at
    paymentId := row.id
    amount := row.amount
    payerName := attendeeName
    payerEmail := none
    seatInfo := none
    transactionId := none }

/-- Embeds `searchPaymentsByNameOrEmail` (src/lib/db.ts lines 193-281)
over an abstract backend.  `fmtD`/`fmtT` stand for the locale- and
timezone-dependent `toLocaleDateString`/`toLocaleTimeString`.  Note the
SQL the function issues uses only `hostUserId`; `searchQuery` is
accepted but never read.  Errors from either statement are re-thrown
unchanged by the surrounding try/catch. -/
def searchPaymentsByNameOrEmailE {ε : Type} (backend : Backend ε)
    (fmtD fmtT : Nat → String) (searchQuery : String) (hostUserId : Nat) :
    Except ε (List SeatLookupResult) :=
  match query (backend.paymentsQuery hostUserId) with
  | .error e => .error e
  | .ok rows =>
    let attendeeIds :=
      jsSetDedup ((rows.filterMap (fun r => r.event_attendee_id)).filter (fun i => i != 0))
    match (if attendeeIds.length > 0 then query (backend.attendeesQuery attendeeIds)
           else .ok []) with
    | .error e => .error e
    | .ok ats => .ok (rows.map (enrichRow ats fmtD fmtT))

/-- Runs `searchPaymentsByNameOrEmail` against a concrete database (where the
backend cannot fail). -/
def searchPaymentsByNameOrEmail (db : Db) (fmtD fmtT : Nat → String)
    (searchQuery : String) (hostUserId : Nat) : List SeatLookupResult :=
  match searchPaymentsByNameOrEmailE db.backend fmtD fmtT searchQuery hostUserId with
  | .ok results => results
  | .error e => e.elim

/-- JS `toLowerCase` (restricted, like `LOWER`, to per-char lowering). -/
def jsToLower (s : String) : String := ⟨s.data.map Char.toLower⟩

/-- Modelled from the spec: the contractual name filter — "a
case-insensitive substring match on first/last name".  The code under
src/ never applies it; this definition exists to state that divergence. -/
def specNameMatches (q first last : String) : Bool :=
  segIn (jsToLower q).data (jsToLower first).data ||
    segIn (jsToLower q).data (jsToLower last).data

example : jsIncludes "hello world" "lo wo" = true := by decide
example : jsIncludes "hello" "z" = false := by decide
example : jsJoin "," ["a", "b", "c"] = "a,b,c" := by rfl
example : parseIntJs "2020" = some 2020 := by decide
example : parseIntJs "undefined" = none := by decide
example : splitSlash "01/02/2020".data = ["01".data, "02".data, "2020".data] := by decide

/-! ## The `searchPayments` query-text builder (src/lib/db.ts lines 112-178) -/

/-- A bound query parameter, as pushed into `queryParams`. -/
inductive SqlValue where
  | strs : List String → SqlValue
  | str : String → SqlValue
  | nat : Nat → SqlValue
deriving DecidableEq, Repr

/-- Shape `PaymentSearchParams` of src/lib/db.ts; `none` is `undefined`. -/
structure PaymentSearchParams where
  transactionIds : Option (List String) := none
  dateFrom : Option String := none
  dateTo : Option String := none
  hostUserId : Option Nat := none
  limit : Option Nat := none
  offset : Option Nat := none
deriving DecidableEq, Repr

/-- The guard `params.transactionIds && params.transactionIds.length > 0`. -/
def truthyIds (o : Option (List String)) : Bool :=
  match o with
  | some l => decide (l.length > 0)
  | none => false

/-- The fixed SELECT prefix of `searchPayments` (src/lib/db.ts lines 115-134). -/
def searchPaymentsBase : String :=
  "\n    SELECT \n      p.id,\n      p.transaction_id,\n      p.status,\n      p.name_on_card,\n      p.card_type,\n      p.last_four,\n      p.amount,\n      p.created_at,\n      p.user_id,\n      p.event_id,\n      p.event_attendee_id,\n      p.shipping_address_id,\n      p.metadata,\n      e.user_id as host_user_id\n    FROM payments_fdw p\n    LEFT JOIN events_fdw e ON p.event_id = e.id\n    WHERE 1=1\n  "

/-- Embeds the query-text/parameter-list construction of `searchPayments`
(src/lib/db.ts lines 112-178): one conditionally appended clause per
truthy field, placeholders numbered in order of appearance, always an
`ORDER BY`, then conditional `LIMIT` and `OFFSET`. -/
def buildSearchPaymentsQuery (params : PaymentSearchParams) : String × List SqlValue :=
  let queryText := searchPaymentsBase
  let queryParams : List SqlValue := []
  let paramCount : Nat := 0
  let s1 :=
    if truthyIds params.transactionIds then
      (queryText ++ " AND p.transaction_id = ANY($" ++ toString (paramCount + 1) ++ ")",
       queryParams ++ [SqlValue.strs (params.transactionIds.getD [])], paramCount + 1)
    else (queryText, queryParams, paramCount)
  let s2 :=
    if truthyStr params.dateFrom then
      (s1.1 ++ " AND p.created_at::date >= $" ++ toString (s1.2.2 + 1) ++ "::date",
       s1.2.1 ++ [SqlValue.str (params.dateFrom.getD "")], s1.2.2 + 1)
    else s1
  let s3 :=
    if truthyStr params.dateTo then
      (s2.1 ++ " AND p.created_at::date <= $" ++ toString (s2.2.2 + 1) ++ "::date",
       s2.2.1 ++ [SqlValue.str (params.dateTo.getD "")], s2.2.2 + 1)
    else s2
  let s4 :=
    if truthyNat params.hostUserId then
      (s3.1 ++ " AND e.user_id = $" ++ toString (s3.2.2 + 1),
       s3.2.1 ++ [SqlValue.nat (params.hostUserId.getD 0)], s3.2.2 + 1)
    else s3
  let s5 := (s4.1 ++ " ORDER BY p.created_at DESC", s4.2.1, s4.2.2)
  let s6 :=
    if truthyNat params.limit then
      (s5.1 ++ " LIMIT $" ++ toString (s5.2.2 + 1),
       s5.2.1 ++ [SqlValue.nat (params.limit.getD 0)], s5.2.2 + 1)
    else s5
  let s7 :=
    if truthyNat params.offset then
      (s6.1 ++ " OFFSET $" ++ toString (s6.2.2 + 1),
       s6.2.1 ++ [SqlValue.nat (params.offset.getD 0)], s6.2.2 + 1)
    else s6
  (s7.1, s7.2.1)

/-! ## The form filter-to-SQL builder (`processFromForm`, playground page) -/

/-- The `formFilters` state object with its initial values. -/
structure FormFilters where
  limit : Nat := 100
  orderBy : String := "created_at"
  orderDirection : String := "DESC"
  status : String := ""
  cardType : String := ""
  dateFrom : String := ""
  dateTo : String := ""
  minAmount : String := ""
  maxAmount : String := ""
  hasGatewayId : Bool := false
  hasTransactionId : Bool := false
  hostUserId : String := ""
deriving DecidableEq, Repr

/-- JS string interpolation of `parseInt(s)`: decimal rendering, or the
text `NaN` when nothing parses. -/
def jsParseIntStr (s : String) : String :=
  match parseIntJs s with
  | some n => toString n
  | none => "NaN"

/-- The `needsEventsJoin` flag set while choosing the SELECT shape. -/
def formNeedsEventsJoin (selectedTable : String) (f : FormFilters) : Bool :=
  if selectedTable == "payments_with_events" then true
  else if selectedTable == "payments_with_users" then false
  else if jsIncludes selectedTable "payments" && truthyS f.hostUserId then true
  else false

/-- The SELECT/FROM head of the form-built SQL (lines 240-251). -/
def formBase (selectedTable : String) (f : FormFilters) : String :=
  if selectedTable == "payments_with_events" then
    "SELECT p.id, p.transaction_id, p.event_id, p.amount, p.status, p.card_type, p.last_four, p.created_at, p.updated_at, p.user_id, p.payment_gateway_id, e.user_id as host_user_id FROM payments_fdw p LEFT JOIN events_fdw e ON p.event_id = e.id"
  else if selectedTable == "payments_with_users" then
    "SELECT p.id, p.transaction_id, p.event_id, p.amount, p.status, p.card_type, p.last_four, p.created_at, p.updated_at, p.user_id, p.payment_gateway_id, CONCAT(u.first_name, ' ', u.last_name) as full_name, u.email FROM payments_fdw p LEFT JOIN users_fdw u ON p.user_id = u.id"
  else if jsIncludes selectedTable "payments" && truthyS f.hostUserId then
    "SELECT p.id, p.transaction_id, p.event_id, p.amount, p.status, p.card_type, p.last_four, p.created_at, p.updated_at, p.user_id, p.payment_gateway_id, e.user_id as host_user_id FROM payments_fdw p LEFT JOIN events_fdw e ON p.event_id = e.id"
  else "SELECT * FROM " ++ selectedTable

/-- The `tablePrefix` chosen for column references (lines 255-260); the
same expression also prefixes the ORDER BY column (lines 303-309). -/
def formTablePfx (selectedTable : String) (f : FormFilters) : String :=
  if selectedTable == "payments_with_events" || selectedTable == "payments_with_users"
      || formNeedsEventsJoin selectedTable f then "p." else ""

/-- The WHERE conditions pushed by `processFromForm` (lines 262-297):
only for a table whose name includes `payments`, one condition per
truthy filter, each value concatenated literally into the text. -/
def formConditions (selectedTable : String) (f : FormFilters) : List String :=
  let pfx := formTablePfx selectedTable f
  if jsIncludes selectedTable "payments" then
    (if truthyS f.status then [pfx ++ "status = '" ++ f.status ++ "'"] else []) ++
    (if truthyS f.cardType then [pfx ++ "card_type = '" ++ f.cardType ++ "'"] else []) ++
    (if truthyS f.dateFrom then [pfx ++ "created_at >= '" ++ f.dateFrom ++ "'"] else []) ++
    (if truthyS f.dateTo then [pfx ++ "created_at <= '" ++ f.dateTo ++ " 23:59:59'"] else []) ++
    (if truthyS f.minAmount then [pfx ++ "amount >= " ++ f.minAmount] else []) ++
    (if truthyS f.maxAmount then [pfx ++ "amount <= " ++ f.maxAmount] else []) ++
    (if f.hasGatewayId then [pfx ++ "payment_gateway_id IS NOT NULL"] else []) ++
    (if f.hasTransactionId then [pfx ++ "transaction_id IS NOT NULL"] else []) ++
    (if truthyS f.hostUserId then ["e.user_id = " ++ jsParseIntStr f.hostUserId] else [])
  else []

/-- Embeds the full SQL string assembled by `processFromForm`
(lines 236-310): head, optional WHERE with AND-joined conditions, then
always `ORDER BY` and `LIMIT`. -/
def buildFormQuery (selectedTable : String) (f : FormFilters) : String :=
  (if (formConditions selectedTable f).length > 0 then
      formBase selectedTable f ++ " WHERE " ++ jsJoin " AND " (formConditions selectedTable f)
    else formBase selectedTable f)
    ++ " ORDER BY " ++ formTablePfx selectedTable f ++ f.orderBy ++ " " ++ f.orderDirection
    ++ " LIMIT " ++ toString f.limit

example :
    buildFormQuery "events_fdw" { status := "success" }
      = "SELECT * FROM events_fdw ORDER BY created_at DESC LIMIT 100" := by rfl
example :
    buildFormQuery "payments_fdw" { status := "success", hostUserId := "7" }
      = "SELECT p.id, p.transaction_id, p.event_id, p.amount, p.status, p.card_type, p.last_four, p.created_at, p.updated_at, p.user_id, p.payment_gateway_id, e.user_id as host_user_id FROM payments_fdw p LEFT JOIN events_fdw e ON p.event_id = e.id WHERE p.status = 'success' AND e.user_id = 7 ORDER BY p.created_at DESC LIMIT 100" := by rfl

/-! ## Dashboard date bucketing and CSV export (src/app/dashboard/page.tsx) -/

/-- The per-row date computation of the dashboard (lines 70-77, 191-198,
259-266): split `eventStartDate` on `/`, `parseInt` year/month/day, and
build the midnight day value of `new Date(year, month-1, day)`.  A JS
array index past the end yields `undefined`, whose `parseInt` is `NaN`;
an invalid component makes the whole date invalid (`none`). -/
def parsedEventDate (s : String) : Option Int :=
  let parts := splitSlash s.data
  match parseIntL (parts.getD 2 "undefined".data),
        parseIntL (parts.getD 0 "undefined".data),
        parseIntL (parts.getD 1 "undefined".data) with
  | some y, some m, some d => some (jsMakeDay y (m - 1) d)
  | _, _, _ => none

/-- Comparison `eventDateObj.getTime() === today.getTime()` (an invalid date, i.e.
`NaN`, compares false). -/
def isTodayR (today : Int) (r : SeatLookupResult) : Bool :=
  match parsedEventDate r.eventStartDate with
  | some d => d == today
  | none => false

/-- Comparison `eventDateObj < today` (false for an invalid date). -/
def isPastR (today : Int) (r : SeatLookupResult) : Bool :=
  match parsedEventDate r.eventStartDate with
  | some d => decide (d < today)
  | none => false

/-- Comparison `eventDateObj > today` (false for an invalid date). -/
def isFutureR (today : Int) (r : SeatLookupResult) : Bool :=
  match parsedEventDate r.eventStartDate with
  | some d => decide (d > today)
  | none => false

/-- The display/export filter (lines 70-93 and 277-300): always keep
today's rows, keep past rows when `showPastTransactions` is checked,
keep future rows when `showFutureTransactions` is checked. -/
def csvFilter (today : Int) (showPast showFuture : Bool)
    (results : List SeatLookupResult) : List SeatLookupResult :=
  results.filter (fun r =>
    if isTodayR today r then true
    else if isPastR today r && showPast then true
    else if isFutureR today r && showFuture then true
    else false)

/-- The CSV header row of the dashboard export (lines 95-102). -/
def csvHeaders : List String :=
  ["Event Name", "Event Date", "Event Time", "Payment ID", "Payer Name", "Seat"]

/-- One data row of the dashboard export (lines 104-111); `||` defaults
of falsy `payerName`/`seatInfo` to the empty string, the payment id is
stringified by the template. -/
def csvRow (r : SeatLookupResult) : List String :=
  [r.eventName, r.eventStartDate, r.eventStartTime, toString r.paymentId,
   r.payerName.getD "", r.seatInfo.getD ""]

/-- One CSV text line: each cell wrapped in double quotes (without any
escaping of the cell content), joined by commas (line 114). -/
def csvLine (cells : List String) : String :=
  jsJoin "," (cells.map (fun cell => "\"" ++ cell ++ "\""))

/-- The full `csvContent` string of `exportToCSV` (lines 65-115). -/
def exportCsvContent (today : Int) (showPast showFuture : Bool)
    (results : List SeatLookupResult) : String :=
  jsJoin "\n" ((csvHeaders :: (csvFilter today showPast showFuture results).map csvRow).map csvLine)

/-- Number of text lines of a string: one more than its newline count. -/
def lineCount (s : String) : Nat := s.data.count '\n' + 1

/-! ## ZIP-code enrichment (`processZipCodesFromData`, playground page) -/

/-- Input row of the batch (the `Record<string, unknown>` fields the
loop reads); `none` is an absent/null field. -/
structure InRow where
  transaction_id : Option String := none
  id : Option Nat := none
  created_at : Option String := none
  amount : Option Int := none
  status : Option String := none
  card_type : Option String := none
  last_four : Option String := none
  user_id : Option Nat := none
  event_id : Option Nat := none
  event_attendee_id : Option Nat := none
deriving DecidableEq, Repr

/-- A successful `Result` entry of the playground page. -/
structure ZipResult where
  transactionId : String
  zipCode : String
  createdAt : Option String
  amount : Option Int
  status : String
  cardType : Option String
  lastFour : Option String
  paymentId : Option Nat
  userId : Option Nat
  eventId : Option Nat
  eventAttendeeId : Option Nat
deriving DecidableEq, Repr

/-- A `ProcessingError` entry of the playground page. -/
structure ProcessingError where
  transactionId : String
  error : String
deriving DecidableEq, Repr

/-- Outcome of one `/api/fetch-zip` round trip for a transaction id:
a ZIP in `zipData.results`, an entry in `zipData.errors`, a response
carrying neither, or a thrown fetch/JSON error. -/
inductive ZipOutcome where
  | found : String → ZipOutcome
  | apiError : String → ZipOutcome
  | neither : ZipOutcome
  | thrown : String → ZipOutcome
deriving DecidableEq, Repr

/-- Whether the outcome is recorded as a failure by the loop. -/
def isZipFailure : ZipOutcome → Bool
  | .apiError _ => true
  | .thrown _ => true
  | _ => false

/-- The message the loop records for a failing outcome. -/
def failMsg : ZipOutcome → String
  | .apiError m => m
  | .thrown m => m
  | _ => ""

/-- Chain `row.transaction_id || row.id || row_i` — the truthiness chain
choosing the transaction id for row `i` (lines 385-387; a numeric id is
rendered as its decimal string). -/
def txId (row : InRow) (i : Nat) : String :=
  if truthyStr row.transaction_id then row.transaction_id.getD ""
  else if truthyNat row.id then toString (row.id.getD 0)
  else "row_" ++ toString i

/-- One iteration's ZIP outcome (lines 391-421): placeholder `-` unless
a ZIP was found; an API error entry or a thrown error is pushed to the
error list, everything else records nothing. -/
def zipOf (checkZips : Bool) (lookup : String → ZipOutcome) (tx : String) :
    String × Option ProcessingError :=
  if checkZips then
    match lookup tx with
    | .found z => (z, none)
    | .apiError m => ("-", some ⟨tx, m⟩)
    | .neither => ("-", none)
    | .thrown m => ("-", some ⟨tx, m⟩)
  else ("-", none)

/-- The normalized result row pushed for every input row (lines 423-436);
`row.amount ? Number(row.amount) : undefined` and
`(row.status as string) || "SUCCESS"` are JS truthiness defaults. -/
def mkZipResult (row : InRow) (tx zip : String) : ZipResult :=
  { transactionId := tx
    zipCode := zip
    createdAt := row.created_at
    amount := if truthyInt row.amount then some (row.amount.getD 0) else none
    status := if truthyStr row.status then row.status.getD "" else "SUCCESS"
    cardType := row.card_type
    lastFour := row.last_four
    paymentId := row.id
    userId := row.user_id
    eventId := row.event_id
    eventAttendeeId := row.event_attendee_id }

/-- Embeds the sequential loop of `processZipCodesFromData`
(lines 367-451), started at index `i`: every input row is appended to
the results (ZIP failures never drop a row), failures are collected in
the separate error list. -/
def processZipCodesFromData (checkZips : Bool) (lookup : String → ZipOutcome) :
    Nat → List InRow → List ZipResult × List ProcessingError
  | _, [] => ([], [])
  | i, row :: rest =>
    let tx := txId row i
    let ze := zipOf checkZips lookup tx
    let tail := processZipCodesFromData checkZips lookup (i + 1) rest
    (mkZipResult row tx ze.1 :: tail.1,
     match ze.2 with
     | some e => e :: tail.2
     | none => tail.2)

/-! ## General lemmas about the JS helpers -/

theorem nil_isPrefixOf (l : List Char) : ([] : List Char).isPrefixOf l = true := by
  cases l <;> rfl

theorem isPrefixOf_self (l : List Char) : l.isPrefixOf l = true := by
  induction l with
  | nil => rfl
  | cons c cs ih => simp [List.isPrefixOf, ih]

theorem isPrefixOf_append_right {l m : List Char} (b : List Char)
    (h : l.isPrefixOf m = true) : l.isPrefixOf (m ++ b) = true := by
  induction l generalizing m with
  | nil => exact nil_isPrefixOf _
  | cons a as ih =>
    cases m with
    | nil => simp [List.isPrefixOf] at h
    | cons c cs =>
      simp only [List.isPrefixOf, Bool.and_eq_true] at h
      simp only [List.cons_append, List.isPrefixOf, Bool.and_eq_true]
      exact ⟨h.1, ih h.2⟩

theorem segIn_of_isPrefixOf {n m : List Char} (h : n.isPrefixOf m = true) :
    segIn n m = true := by
  cases m with
  | nil => simpa [segIn] using h
  | cons c cs => simp [segIn, h]

theorem segIn_append_left {n m : List Char} (a : List Char)
    (h : segIn n m = true) : segIn n (a ++ m) = true := by
  induction a with
  | nil => simpa using h
  | cons c cs ih => simp [segIn, List.cons_append, ih]

theorem segIn_append_right {n m : List Char} (b : List Char)
    (h : segIn n m = true) : segIn n (m ++ b) = true := by
  induction m with
  | nil =>
    cases n with
    | nil => exact segIn_of_isPrefixOf (nil_isPrefixOf _)
    | cons c cs => simp [segIn, List.isPrefixOf] at h
  | cons c cs ih =>
    simp only [segIn, Bool.or_eq_true] at h
    rcases h with h | h
    · exact segIn_of_isPrefixOf (by simpa [List.cons_append] using isPrefixOf_append_right b h)
    · simp [segIn, List.cons_append, ih h]

theorem segIn_self (l : List Char) : segIn l l = true :=
  segIn_of_isPrefixOf (isPrefixOf_self l)

theorem jsIncludes_self (s : String) : jsIncludes s s = true := segIn_self _

theorem jsIncludes_append_left (a m sub : String) (h : jsIncludes m sub = true) :
    jsIncludes (a ++ m) sub = true := by
  unfold jsIncludes at *
  rw [String.data_append]
  exact segIn_append_left _ h

theorem jsIncludes_append_right (m b sub : String) (h : jsIncludes m sub = true) :
    jsIncludes (m ++ b) sub = true := by
  unfold jsIncludes at *
  rw [String.data_append]
  exact segIn_append_right _ h

theorem jsIncludes_of_mem_jsJoin {x : String} (sep : String) {l : List String}
    (h : x ∈ l) : jsIncludes (jsJoin sep l) x = true := by
  induction l with
  | nil => cases h
  | cons y tl ih =>
    cases tl with
    | nil =>
      rw [List.mem_singleton] at h
      subst h
      exact jsIncludes_self x
    | cons z tl2 =>
      rcases List.mem_cons.mp h with rfl | hmem
      · have h1 := jsIncludes_append_right x sep x (jsIncludes_self x)
        have h2 := jsIncludes_append_right (x ++ sep) (jsJoin sep (z :: tl2)) x h1
        simpa [jsJoin] using h2
      · have h2 := jsIncludes_append_left (y ++ sep) (jsJoin sep (z :: tl2)) x (ih hmem)
        simpa [jsJoin] using h2

/-! ## Shared facts about the seat search pipeline -/

/-- The seat search evaluates to the mapped enrichment of the payment
query's rows, for some batch-fetched attendee list drawn from the
database. -/
theorem searchPBNE_eq (db : Db) (fmtD fmtT : Nat → String) (q : String) (host : Nat) :
    ∃ ats : List AttendeeRow, (∀ a ∈ ats, a ∈ db.attendees) ∧
      searchPaymentsByNameOrEmail db fmtD fmtT q host
        = (hostPayments db host).map (enrichRow ats fmtD fmtT) := by
  by_cases h : (jsSetDedup (((hostPayments db host).filterMap
      (fun r => r.event_attendee_id)).filter (fun i => i != 0))).length > 0
  · refine ⟨db.attendees.filter (fun a => (jsSetDedup (((hostPayments db host).filterMap
        (fun r => r.event_attendee_id)).filter (fun i => i != 0))).contains a.id),
      fun a ha => (List.mem_filter.mp ha).1, ?_⟩
    unfold searchPaymentsByNameOrEmail searchPaymentsByNameOrEmailE
    simp [Db.backend, query, h]
  · refine ⟨[], by simp, ?_⟩
    unfold searchPaymentsByNameOrEmail searchPaymentsByNameOrEmailE
    simp [Db.backend, query, h]

/-- A concrete payment row used by the example databases. -/
def exPayment1 : PaymentRow :=
  { id := 10, amount := 500, created_at := 0, event_id := 1, event_attendee_id := some 5 }

/-- Example database: one event owned by host user 1 and one payment on
it whose attendee is Alice Smith. -/
def exDb1 : Db :=
  { payments := [exPayment1]
    events := [{ id := 1, user_id := 1 }]
    attendees := [{ id := 5, first_name := "Alice", last_name := "Smith" }] }

/-! ## Claims -/

/-- C1 (code bug): `searchPaymentsByNameOrEmail` never applies the name
filter.  With search query `zzz` and host user 1 it still returns the
payment whose attendee is Alice Smith, although `zzz` matches neither
name case-insensitively — the contractual filter (`specNameMatches`) is
false for this row. -/
theorem seatSearch_ignores_name_filter :
    (searchPaymentsByNameOrEmail exDb1 (fun _ => "") (fun _ => "") "zzz" 1).map
        (fun r => r.payerName) = [some "Alice Smith"] ∧
    specNameMatches "zzz" "Alice" "Smith" = false := by
  constructor
  · rfl
  · decide

/-- C2: the payment query of `searchPaymentsByNameOrEmail` restricts
rows to events owned by the given host user, orders them by
`created_at` descending, and returns at most 100 rows; the search
output has exactly one entry per queried row. -/
theorem seatSearch_query_scoped_sorted_limited (db : Db) (hostUserId : Nat) :
    (∀ p ∈ hostPayments db hostUserId,
        ∃ e ∈ db.events, e.id = p.event_id ∧ e.user_id = hostUserId) ∧
    (hostPayments db hostUserId).Pairwise (fun a b => b.created_at ≤ a.created_at) ∧
    (hostPayments db hostUserId).length ≤ 100 ∧
    ∀ fmtD fmtT q, (searchPaymentsByNameOrEmail db fmtD fmtT q hostUserId).length
        = (hostPayments db hostUserId).length := by
  refine ⟨?_, ?_, ?_, ?_⟩
  · intro p hp
    have h1 := List.mem_of_mem_take hp
    have h2 := (List.perm_insertionSort createdDesc _).mem_iff.mp h1
    rw [List.mem_flatMap] at h2
    obtain ⟨p', hp', hmem⟩ := h2
    rw [List.mem_map] at hmem
    obtain ⟨e, he, hpe⟩ := hmem
    rw [List.mem_filter] at he
    have hcond := he.2
    simp only [Bool.and_eq_true, beq_iff_eq] at hcond
    refine ⟨e, he.1, ?_, hcond.2⟩
    rw [← hpe]
    exact hcond.1
  · have hs := List.sorted_insertionSort createdDesc (db.payments.flatMap (fun p =>
      (db.events.filter (fun e => e.id == p.event_id && e.user_id == hostUserId)).map
        (fun _ => p)))
    exact List.Pairwise.sublist (List.take_sublist _ _) hs
  · exact List.length_take_le _ _
  · intro fmtD fmtT q
    obtain ⟨ats, _, heq⟩ := searchPBNE_eq db fmtD fmtT q hostUserId
    rw [heq, List.length_map]

/-- C2 witness at a concrete database. -/
theorem seatSearch_query_scoped_sorted_limited_witness :
    (∃ e ∈ exDb1.events, e.id = 1 ∧ e.user_id = 1) ∧
    (hostPayments exDb1 1).length ≤ 100 ∧
    (searchPaymentsByNameOrEmail exDb1 (fun _ => "") (fun _ => "") "zzz" 1).length
      = (hostPayments exDb1 1).length := by
  refine ⟨?_, (seatSearch_query_scoped_sorted_limited exDb1 1).2.2.1,
    (seatSearch_query_scoped_sorted_limited exDb1 1).2.2.2 _ _ _⟩
  have hp : exPayment1 ∈ hostPayments exDb1 1 := by decide
  obtain ⟨e, he, h1, h2⟩ := (seatSearch_query_scoped_sorted_limited exDb1 1).1 _ hp
  exact ⟨e, he, h1, h2⟩

/-- C4: a queried payment row with a set (truthy) `event_attendee_id`
that the batch attendee fetch does not cover is kept in the result list
— the output has one entry per queried row — and its `payerName` is the
placeholder `Attendee #<id>`. -/
theorem missing_attendee_placeholder (db : Db) (fmtD fmtT : Nat → String) (q : String)
    (host : Nat) (row : PaymentRow) (aid : Nat)
    (hrow : row ∈ hostPayments db host)
    (haid : row.event_attendee_id = some aid) (h0 : aid ≠ 0)
    (hmiss : ∀ a ∈ db.attendees, a.id ≠ aid) :
    (searchPaymentsByNameOrEmail db fmtD fmtT q host).length
      = (hostPayments db host).length ∧
    ∃ r ∈ searchPaymentsByNameOrEmail db fmtD fmtT q host,
      r.paymentId = row.id ∧ r.payerName = some ("Attendee #" ++ toString aid) := by
  obtain ⟨ats, hsub, heq⟩ := searchPBNE_eq db fmtD fmtT q host
  constructor
  · rw [heq, List.length_map]
  · refine ⟨enrichRow ats fmtD fmtT row, ?_, rfl, ?_⟩
    · rw [heq]
      exact List.mem_map_of_mem _ hrow
    · have hfilter : ats.filter (fun a => a.id == aid) = [] := by
        rw [List.filter_eq_nil_iff]
        intro a ha
        simp [hmiss a (hsub a ha)]
      simp [enrichRow, haid, h0, hfilter]

/-- Example database like `exDb1` but with no attendee rows at all. -/
def exDb2 : Db :=
  { payments := [exPayment1]
    events := [{ id := 1, user_id := 1 }]
    attendees := [] }

/-- C4 witness: the attendee fetch finds nothing for id 5 and the row is
kept with the placeholder name. -/
theorem missing_attendee_placeholder_witness :
    (searchPaymentsByNameOrEmail exDb2 (fun _ => "") (fun _ => "") "q" 1).length
      = (hostPayments exDb2 1).length ∧
    ∃ r ∈ searchPaymentsByNameOrEmail exDb2 (fun _ => "") (fun _ => "") "q" 1,
      r.paymentId = 10 ∧ r.payerName = some ("Attendee #" ++ toString 5) :=
  missing_attendee_placeholder exDb2 (fun _ => "") (fun _ => "") "q" 1 exPayment1
    5 (by decide) (by decide) (by decide) (by decide)

/-- C9: the `query` helper returns any backend error unchanged (no
retry, no substitution), and `searchPaymentsByNameOrEmail` re-throws
the same error whether the payment statement or the attendee statement
fails. -/
theorem query_errors_propagate {ε : Type} (backend : Backend ε)
    (fmtD fmtT : Nat → String) (q : String) (host : Nat) (e : ε) :
    (∀ (α : Type) (r : Except ε α), query r = r) ∧
    (backend.paymentsQuery host = .error e →
      searchPaymentsByNameOrEmailE backend fmtD fmtT q host = .error e) ∧
    (∀ rows, backend.paymentsQuery host = .ok rows →
      (∀ ids, backend.attendeesQuery ids = .error e) →
      (jsSetDedup ((rows.filterMap (fun r => r.event_attendee_id)).filter
          (fun i => i != 0))).length > 0 →
      searchPaymentsByNameOrEmailE backend fmtD fmtT q host = .error e) := by
  refine ⟨fun α r => by cases r <;> rfl, ?_, ?_⟩
  · intro h
    unfold searchPaymentsByNameOrEmailE
    rw [h]
    rfl
  · intro rows hok herr hlen
    unfold searchPaymentsByNameOrEmailE
    rw [hok]
    simp [query, herr, hlen]

/-- A backend whose statements always fail. -/
def failingBackend : Backend String :=
  { paymentsQuery := fun _ => .error "db down"
    attendeesQuery := fun _ => .error "db down" }

/-- C9 witness: the failing backend's error surfaces unchanged. -/
theorem query_errors_propagate_witness :
    query (ε := String) (α := List PaymentRow) (.error "db down") = .error "db down" ∧
    searchPaymentsByNameOrEmailE failingBackend (fun _ => "") (fun _ => "") "q" 1
      = .error "db down" :=
  ⟨(query_errors_propagate failingBackend (fun _ => "") (fun _ => "") "q" 1 "db down").1 _ _,
   (query_errors_propagate failingBackend (fun _ => "") (fun _ => "") "q" 1 "db down").2.1 rfl⟩

/-- A row whose date parses falls in exactly one of the three buckets. -/
theorem bucket_trichotomy (today : Int) (r : SeatLookupResult)
    (h : (parsedEventDate r.eventStartDate).isSome = true) :
    (isPastR today r = true ∧ isTodayR today r = false ∧ isFutureR today r = false) ∨
    (isPastR today r = false ∧ isTodayR today r = true ∧ isFutureR today r = false) ∨
    (isPastR today r = false ∧ isTodayR today r = false ∧ isFutureR today r = true) := by
  cases hd : parsedEventDate r.eventStartDate with
  | none => rw [hd] at h; simp at h
  | some d =>
    simp only [isPastR, isTodayR, isFutureR, hd, decide_eq_true_eq,
      decide_eq_false_iff_not, beq_iff_eq, beq_eq_false_iff_ne]
    omega

/-- Counting form of the partition: the three bucket filters cover the
list exactly once when every date parses. -/
theorem bucket_count (today : Int) : ∀ rs : List SeatLookupResult,
    (∀ r ∈ rs, (parsedEventDate r.eventStartDate).isSome = true) →
    (rs.filter (isPastR today)).length + (rs.filter (isTodayR today)).length
      + (rs.filter (isFutureR today)).length = rs.length
  | [], _ => rfl
  | r :: tl, h => by
    have htri := bucket_trichotomy today r (h r (List.mem_cons_self r tl))
    have ih := bucket_count today tl (fun x hx => h x (List.mem_cons_of_mem r hx))
    simp only [List.filter_cons, List.length_cons]
    rcases htri with ⟨h1, h2, h3⟩ | ⟨h1, h2, h3⟩ | ⟨h1, h2, h3⟩ <;>
      simp [h1, h2, h3] <;> omega

/-- C5: the client-side date-bucket classification assigns every result
whose date parses (all dates produced by the seat search do) to exactly
one of past/today/future: the buckets are pairwise disjoint and their
sizes sum to the full unfiltered list. -/
theorem dateBuckets_partition (today : Int) (rs : List SeatLookupResult)
    (h : ∀ r ∈ rs, (parsedEventDate r.eventStartDate).isSome = true) :
    ((rs.filter (isPastR today)).length + (rs.filter (isTodayR today)).length
        + (rs.filter (isFutureR today)).length = rs.length) ∧
    (∀ r ∈ rs,
      ¬(isPastR today r = true ∧ isTodayR today r = true) ∧
      ¬(isPastR today r = true ∧ isFutureR today r = true) ∧
      ¬(isTodayR today r = true ∧ isFutureR today r = true)) := by
  refine ⟨bucket_count today rs h, ?_⟩
  intro r hr
  rcases bucket_trichotomy today r (h r hr) with ⟨h1, h2, h3⟩ | ⟨h1, h2, h3⟩ | ⟨h1, h2, h3⟩ <;>
    refine ⟨?_, ?_, ?_⟩ <;> simp [h1, h2, h3]

/-- A sample row dated one day before the sample today. -/
def pastRow : SeatLookupResult :=
  { eventName := "Event #1", eventStartDate := "01/01/2020", eventStartTime := "",
    paymentId := 1, amount := 0, payerName := none, payerEmail := none, transactionId := none }

/-- A sample row dated on the sample today. -/
def todayRow : SeatLookupResult :=
  { eventName := "Event #2", eventStartDate := "01/02/2020", eventStartTime := "",
    paymentId := 2, amount := 0, payerName := none, payerEmail := none, transactionId := none }

/-- A sample row dated one day after the sample today. -/
def futureRow : SeatLookupResult :=
  { eventName := "Event #3", eventStartDate := "01/03/2020", eventStartTime := "",
    paymentId := 3, amount := 0, payerName := none, payerEmail := none, transactionId := none }

/-- The sample today: January 2, 2020. -/
def exToday : Int := jsMakeDay 2020 0 2

/-- C5 witness at three concrete rows around January 2, 2020. -/
theorem dateBuckets_partition_witness :
    ([pastRow, todayRow, futureRow].filter (isPastR exToday)).length
      + ([pastRow, todayRow, futureRow].filter (isTodayR exToday)).length
      + ([pastRow, todayRow, futureRow].filter (isFutureR exToday)).length
      = ([pastRow, todayRow, futureRow] : List SeatLookupResult).length :=
  (dateBuckets_partition exToday [pastRow, todayRow, futureRow] (by decide)).1

/-- Newline count of an array-joined string in terms of its pieces. -/
theorem count_jsJoin (c : Char) (sep : String) : ∀ l : List String,
    (jsJoin sep l).data.count c
      = (l.map (fun s => s.data.count c)).sum + sep.data.count c * (l.length - 1)
  | [] => by simp [jsJoin]
  | [x] => by simp [jsJoin]
  | x :: y :: tl => by
    have ih := count_jsJoin c sep (y :: tl)
    simp only [jsJoin, String.data_append, List.count_append, List.map_cons,
      List.sum_cons, List.length_cons, Nat.add_sub_cancel] at ih ⊢
    rw [ih]
    ring

/-- A CSV line whose cells contain no newline contains no newline: the
quoting adds none and the comma separator adds none. -/
theorem csvLine_newline_count (cells : List String)
    (h : ∀ x ∈ cells, x.data.count '\n' = 0) :
    (csvLine cells).data.count '\n' = 0 := by
  rw [csvLine, count_jsJoin]
  have h1 : (",".data.count '\n') = 0 := by decide
  have h2 : ("\"".data.count '\n') = 0 := by decide
  rw [h1]
  simp only [Nat.zero_mul, Nat.add_zero]
  apply List.sum_eq_zero
  intro x hx
  rw [List.mem_map] at hx
  obtain ⟨q, hq, rfl⟩ := hx
  rw [List.mem_map] at hq
  obtain ⟨cell, hcell, rfl⟩ := hq
  simp [String.data_append, List.count_append, h cell hcell, h2]

/-- C6 (amended): when no exported cell contains a newline, the CSV text
has exactly one line per filtered result plus the header line. -/
theorem csv_lineCount_matches_filtered (today : Int) (showPast showFuture : Bool)
    (results : List SeatLookupResult)
    (h : ∀ r ∈ csvFilter today showPast showFuture results,
        ∀ c ∈ csvRow r, c.data.count '\n' = 0) :
    lineCount (exportCsvContent today showPast showFuture results)
      = (csvFilter today showPast showFuture results).length + 1 := by
  rw [lineCount, exportCsvContent, count_jsJoin]
  have hsep : ("\n".data.count '\n') = 1 := by decide
  rw [hsep]
  have hsum : (((csvHeaders :: (csvFilter today showPast showFuture results).map csvRow).map
      csvLine).map (fun s => s.data.count '\n')).sum = 0 := by
    apply List.sum_eq_zero
    intro x hx
    rw [List.mem_map] at hx
    obtain ⟨line, hline, rfl⟩ := hx
    rw [List.mem_map] at hline
    obtain ⟨cells, hcells, rfl⟩ := hline
    rcases List.mem_cons.mp hcells with rfl | hmem
    · decide
    · rw [List.mem_map] at hmem
      obtain ⟨r, hr, rfl⟩ := hmem
      exact csvLine_newline_count (csvRow r) (h r hr)
  rw [hsum]
  simp [List.length_map, List.length_cons]

/-- A row with no newline in any field, dated on the sample today. -/
def cleanSeatRow : SeatLookupResult :=
  { eventName := "Event #1", eventStartDate := "01/02/2020", eventStartTime := "12:00 AM",
    paymentId := 10, amount := 0, payerName := some "Alice Smith", payerEmail := none,
    seatInfo := some "Sec A Row 2", transactionId := none }

/-- C6 witness: one newline-free filtered row gives a two-line CSV. -/
theorem csv_lineCount_matches_filtered_witness :
    lineCount (exportCsvContent exToday false false [cleanSeatRow])
      = (csvFilter exToday false false [cleanSeatRow]).length + 1 :=
  csv_lineCount_matches_filtered exToday false false [cleanSeatRow] (by decide)

/-- A row kept by the filter whose `seatInfo` contains a newline, as the
dashboard's multi-line seat descriptions do. -/
def cexSeatRow : SeatLookupResult :=
  { eventName := "Event #1", eventStartDate := "01/02/2020", eventStartTime := "12:00 AM",
    paymentId := 10, amount := 0, payerName := some "Alice Smith", payerEmail := none,
    seatInfo := some "Sec A\nRow 2", transactionId := none }

/-- C6 counterexample: the export does not escape newlines inside
quoted cells, so one filtered result already yields a three-line CSV
text instead of the claimed two lines (1 result + 1 header). -/
theorem csv_lineCount_cex :
    (csvFilter exToday false false [cexSeatRow]).length = 1 ∧
    lineCount (exportCsvContent exToday false false [cexSeatRow]) = 3 := by
  decide

/-- Result-list shape of the ZIP loop: one output row per input row, in
order, each enriched at its own index. -/
theorem processZip_fst (checkZips : Bool) (lookup : String → ZipOutcome) :
    ∀ (rows : List InRow) (i : Nat),
      (processZipCodesFromData checkZips lookup i rows).1
        = (List.enumFrom i rows).map (fun kr =>
            mkZipResult kr.2 (txId kr.2 kr.1) (zipOf checkZips lookup (txId kr.2 kr.1)).1)
  | [], _ => rfl
  | row :: rest, i => by
    have ih := processZip_fst checkZips lookup rest (i + 1)
    simp only [processZipCodesFromData, List.enumFrom_cons, List.map_cons]
    rw [ih]

/-- Error-list shape of the ZIP loop: exactly the per-row failures, keyed
by each row's transaction id. -/
theorem processZip_snd (checkZips : Bool) (lookup : String → ZipOutcome) :
    ∀ (rows : List InRow) (i : Nat),
      (processZipCodesFromData checkZips lookup i rows).2
        = (List.enumFrom i rows).filterMap (fun kr =>
            (zipOf checkZips lookup (txId kr.2 kr.1)).2)
  | [], _ => rfl
  | row :: rest, i => by
    have ih := processZip_snd checkZips lookup rest (i + 1)
    simp only [processZipCodesFromData, List.enumFrom_cons, List.filterMap_cons]
    rw [ih]
    cases hz : (zipOf checkZips lookup (txId row i)).2 <;> simp

/-- C7: with ZIP enrichment enabled, a failing ZIP lookup for a row does
not remove the row: the results keep one entry per input row, the
affected row keeps its position with the placeholder ZIP `-`, and the
failure is recorded in the separate error list under the row's
transaction id. -/
theorem zip_failure_keeps_row (lookup : String → ZipOutcome) (rows : List InRow)
    (j : Nat) (row : InRow) (hrow : rows[j]? = some row)
    (hfail : isZipFailure (lookup (txId row j)) = true) :
    (processZipCodesFromData true lookup 0 rows).1.length = rows.length ∧
    (processZipCodesFromData true lookup 0 rows).1[j]?
      = some (mkZipResult row (txId row j) "-") ∧
    (⟨txId row j, failMsg (lookup (txId row j))⟩ : ProcessingError)
      ∈ (processZipCodesFromData true lookup 0 rows).2 := by
  have hzip : zipOf true lookup (txId row j)
      = ("-", some ⟨txId row j, failMsg (lookup (txId row j))⟩) := by
    cases hlk : lookup (txId row j) with
    | found z => rw [hlk] at hfail; simp [isZipFailure] at hfail
    | neither => rw [hlk] at hfail; simp [isZipFailure] at hfail
    | apiError m => simp [zipOf, hlk, failMsg]
    | thrown m => simp [zipOf, hlk, failMsg]
  refine ⟨?_, ?_, ?_⟩
  · rw [processZip_fst]
    simp [List.length_map, List.enumFrom_length]
  · rw [processZip_fst, List.getElem?_map, List.getElem?_enumFrom, hrow]
    simp [hzip]
  · rw [processZip_snd, List.mem_filterMap]
    refine ⟨(j, row), ?_, ?_⟩
    · obtain ⟨hlt, hget⟩ := List.getElem?_eq_some_iff.mp hrow
      have : (List.enumFrom 0 rows)[j]? = some (j, row) := by
        rw [List.getElem?_enumFrom, hrow]
        simp
      obtain ⟨hlt2, hget2⟩ := List.getElem?_eq_some_iff.mp this
      rw [← hget2]
      exact List.getElem_mem hlt2
    · simp [hzip]

/-- A lookup that always reports an API error. -/
def exZipLookup : String → ZipOutcome := fun _ => ZipOutcome.apiError "boom"

/-- A sample input row carrying only a transaction id. -/
def exInRow : InRow := { transaction_id := some "T1" }

/-- C7 witness: the failing row is kept with ZIP `-` and the failure is
recorded separately. -/
theorem zip_failure_keeps_row_witness :
    (processZipCodesFromData true exZipLookup 0 [exInRow]).1.length = 1 ∧
    (processZipCodesFromData true exZipLookup 0 [exInRow]).1[0]?
      = some (mkZipResult exInRow (txId exInRow 0) "-") ∧
    (⟨txId exInRow 0, failMsg (exZipLookup (txId exInRow 0))⟩ : ProcessingError)
      ∈ (processZipCodesFromData true exZipLookup 0 [exInRow]).2 :=
  zip_failure_keeps_row exZipLookup [exInRow] 0 exInRow rfl (by decide)

/-- C10: `searchPayments` treats falsy fields exactly like absent ones —
`hostUserId = 0`, `limit = 0` and `offset = 0` produce the same query
text and parameter list as leaving them `undefined`, and a falsy
`hostUserId`/`limit`/`offset` leaves no host constraint / LIMIT / OFFSET
in the generated text. -/
theorem searchPayments_falsy_fields_omitted (params : PaymentSearchParams) :
    buildSearchPaymentsQuery
        { params with hostUserId := some 0, limit := some 0, offset := some 0 }
      = buildSearchPaymentsQuery
        { params with hostUserId := none, limit := none, offset := none } ∧
    (truthyNat params.hostUserId = false →
      jsIncludes (buildSearchPaymentsQuery params).1 "e.user_id =" = false) ∧
    (truthyNat params.limit = false →
      jsIncludes (buildSearchPaymentsQuery params).1 " LIMIT " = false) ∧
    (truthyNat params.offset = false →
      jsIncludes (buildSearchPaymentsQuery params).1 " OFFSET " = false) := by
  refine ⟨?_, ?_, ?_, ?_⟩
  · simp [buildSearchPaymentsQuery, truthyNat]
  · intro hh
    cases htx : truthyIds params.transactionIds <;>
      cases hdf : truthyStr params.dateFrom <;>
      cases hdt : truthyStr params.dateTo <;>
      cases hl : truthyNat params.limit <;>
      cases ho : truthyNat params.offset <;>
      simp [buildSearchPaymentsQuery, htx, hdf, hdt, hh, hl, ho] <;> decide
  · intro hl
    cases htx : truthyIds params.transactionIds <;>
      cases hdf : truthyStr params.dateFrom <;>
      cases hdt : truthyStr params.dateTo <;>
      cases hh : truthyNat params.hostUserId <;>
      cases ho : truthyNat params.offset <;>
      simp [buildSearchPaymentsQuery, htx, hdf, hdt, hh, hl, ho] <;> decide
  · intro ho
    cases htx : truthyIds params.transactionIds <;>
      cases hdf : truthyStr params.dateFrom <;>
      cases hdt : truthyStr params.dateTo <;>
      cases hh : truthyNat params.hostUserId <;>
      cases hl : truthyNat params.limit <;>
      simp [buildSearchPaymentsQuery, htx, hdf, hdt, hh, hl, ho] <;> decide

/-- C10 witness: concrete falsy values behave like absent fields. -/
theorem searchPayments_falsy_fields_omitted_witness :
    buildSearchPaymentsQuery { hostUserId := some 0, limit := some 0, offset := some 0 }
      = buildSearchPaymentsQuery ({} : PaymentSearchParams) ∧
    jsIncludes (buildSearchPaymentsQuery { hostUserId := some 0 }).1 "e.user_id =" = false :=
  ⟨(searchPayments_falsy_fields_omitted {}).1,
   (searchPayments_falsy_fields_omitted { hostUserId := some 0 }).2.1 (by decide)⟩

/-- C3 counterexample: with no host user id given, `searchPayments`
builds a query with no `events.user_id` constraint and no bound
parameters at all — the generated statement is not scoped to any host. -/
theorem hostScope_not_universal_cex :
    jsIncludes (buildSearchPaymentsQuery {}).1 "e.user_id =" = false ∧
    (buildSearchPaymentsQuery {}).2 = [] := by
  exact ⟨by decide, rfl⟩

/-- Any condition pushed by the form builder occurs verbatim in the
generated SQL text. -/
theorem formCondition_in_query {t : String} {f : FormFilters} {cond : String}
    (hmem : cond ∈ formConditions t f) :
    jsIncludes (buildFormQuery t f) cond = true := by
  have hjoin := jsIncludes_of_mem_jsJoin " AND " hmem
  have hlen : (formConditions t f).length > 0 :=
    List.length_pos.mpr (List.ne_nil_of_mem hmem)
  simp only [buildFormQuery]
  rw [if_pos hlen]
  repeat
    first
      | exact jsIncludes_append_left (formBase t f ++ " WHERE ") _ _ hjoin
      | apply jsIncludes_append_right

/-- C3 (amended): the seat-lookup statement always constrains
`events.user_id` to its host parameter; `searchPayments` and the form
builder add the `events.user_id` constraint exactly when a truthy
`hostUserId` filter is supplied (the form builder additionally requires
a payments table selection) — with no host user id the generated
statement carries no such constraint (see the counterexample). -/
theorem hostScope_when_hostUserId_given (params : PaymentSearchParams)
    (t : String) (f : FormFilters) :
    jsIncludes seatLookupQueryText "WHERE e.user_id = $1" = true ∧
    (truthyNat params.hostUserId = true →
      jsIncludes (buildSearchPaymentsQuery params).1 " AND e.user_id = $" = true) ∧
    (truthyS f.hostUserId = true → jsIncludes t "payments" = true →
      jsIncludes (buildFormQuery t f) ("e.user_id = " ++ jsParseIntStr f.hostUserId) = true) := by
  refine ⟨by decide, ?_, ?_⟩
  · intro hh
    cases htx : truthyIds params.transactionIds <;>
      cases hdf : truthyStr params.dateFrom <;>
      cases hdt : truthyStr params.dateTo <;>
      cases hl : truthyNat params.limit <;>
      cases ho : truthyNat params.offset <;>
      simp [buildSearchPaymentsQuery, htx, hdf, hdt, hh, hl, ho] <;> decide
  · intro hhost hpay
    apply formCondition_in_query
    simp [formConditions, hpay, hhost, List.mem_append]

/-- C3 witness: with a host user id supplied, both builders emit the
events.user_id constraint. -/
theorem hostScope_when_hostUserId_given_witness :
    jsIncludes (buildSearchPaymentsQuery { hostUserId := some 7 }).1
      " AND e.user_id = $" = true ∧
    jsIncludes (buildFormQuery "payments_fdw" { hostUserId := "7" })
      ("e.user_id = " ++ jsParseIntStr "7") = true :=
  ⟨(hostScope_when_hostUserId_given { hostUserId := some 7 } "payments_fdw"
      { hostUserId := "7" }).2.1 (by decide),
   (hostScope_when_hostUserId_given { hostUserId := some 7 } "payments_fdw"
      { hostUserId := "7" }).2.2 (by decide) (by decide)⟩

/-- The status-only filter set used by the C8 counterexample. -/
def cexFilters : FormFilters := { status := "success" }

/-- C8 counterexample: for the selectable table `events_fdw` (whose name
does not include `payments`), a set status filter is silently dropped —
no WHERE condition is appended although a filter is set. -/
theorem formBuilder_ignores_filters_for_nonpayments_cex :
    truthyS cexFilters.status = true ∧
    formConditions "events_fdw" cexFilters = [] ∧
    buildFormQuery "events_fdw" cexFilters
      = "SELECT * FROM events_fdw ORDER BY created_at DESC LIMIT 100" := by
  exact ⟨by decide, rfl, rfl⟩

/-- Length of one optional condition segment. -/
theorem length_boolSeg (b : Bool) (x : String) :
    (if b = true then [x] else []).length = (if b = true then 1 else 0) := by
  cases b <;> rfl

/-- C8 (amended): for a payments table the form builder appends exactly
one WHERE condition per set filter, each with the filter's value
concatenated literally into the text; for other tables the filters are
dropped (see the counterexample); the WHERE keyword is added exactly
when at least one condition exists; and the statement always ends with
an ORDER BY clause followed by a LIMIT clause. -/
theorem formBuilder_structure (t : String) (f : FormFilters) :
    (jsIncludes t "payments" = true →
      (formConditions t f).length
        = (if truthyS f.status then 1 else 0) + (if truthyS f.cardType then 1 else 0)
          + (if truthyS f.dateFrom then 1 else 0) + (if truthyS f.dateTo then 1 else 0)
          + (if truthyS f.minAmount then 1 else 0) + (if truthyS f.maxAmount then 1 else 0)
          + (if f.hasGatewayId then 1 else 0) + (if f.hasTransactionId then 1 else 0)
          + (if truthyS f.hostUserId then 1 else 0)) ∧
    (jsIncludes t "payments" = false → formConditions t f = []) ∧
    (jsIncludes t "payments" = true → truthyS f.status = true →
      jsIncludes (buildFormQuery t f)
        (formTablePfx t f ++ "status = '" ++ f.status ++ "'") = true) ∧
    (jsIncludes t "payments" = true → truthyS f.cardType = true →
      jsIncludes (buildFormQuery t f)
        (formTablePfx t f ++ "card_type = '" ++ f.cardType ++ "'") = true) ∧
    (jsIncludes t "payments" = true → truthyS f.dateFrom = true →
      jsIncludes (buildFormQuery t f)
        (formTablePfx t f ++ "created_at >= '" ++ f.dateFrom ++ "'") = true) ∧
    (jsIncludes t "payments" = true → truthyS f.dateTo = true →
      jsIncludes (buildFormQuery t f)
        (formTablePfx t f ++ "created_at <= '" ++ f.dateTo ++ " 23:59:59'") = true) ∧
    (jsIncludes t "payments" = true → truthyS f.minAmount = true →
      jsIncludes (buildFormQuery t f)
        (formTablePfx t f ++ "amount >= " ++ f.minAmount) = true) ∧
    (jsIncludes t "payments" = true → truthyS f.maxAmount = true →
      jsIncludes (buildFormQuery t f)
        (formTablePfx t f ++ "amount <= " ++ f.maxAmount) = true) ∧
    (jsIncludes t "payments" = true → truthyS f.hostUserId = true →
      jsIncludes (buildFormQuery t f)
        ("e.user_id = " ++ jsParseIntStr f.hostUserId) = true) ∧
    ((formConditions t f).length > 0 →
      jsIncludes (buildFormQuery t f) " WHERE " = true) ∧
    (formConditions t f = [] →
      buildFormQuery t f = formBase t f ++ " ORDER BY " ++ formTablePfx t f ++ f.orderBy
        ++ " " ++ f.orderDirection ++ " LIMIT " ++ toString f.limit) ∧
    (∃ pre : String, (buildFormQuery t f).data
      = pre.data ++ (" ORDER BY " ++ formTablePfx t f ++ f.orderBy ++ " " ++ f.orderDirection
        ++ " LIMIT " ++ toString f.limit).data) := by
  refine ⟨?_, ?_, ?_, ?_, ?_, ?_, ?_, ?_, ?_, ?_, ?_, ?_⟩
  · intro hpay
    simp [formConditions, hpay, List.length_append, length_boolSeg]
    ring
  · intro hpay
    simp [formConditions, hpay]
  · intro hpay hx
    apply formCondition_in_query
    simp [formConditions, hpay, hx, List.mem_append]
  · intro hpay hx
    apply formCondition_in_query
    simp [formConditions, hpay, hx, List.mem_append]
  · intro hpay hx
    apply formCondition_in_query
    simp [formConditions, hpay, hx, List.mem_append]
  · intro hpay hx
    apply formCondition_in_query
    simp [formConditions, hpay, hx, List.mem_append]
  · intro hpay hx
    apply formCondition_in_query
    simp [formConditions, hpay, hx, List.mem_append]
  · intro hpay hx
    apply formCondition_in_query
    simp [formConditions, hpay, hx, List.mem_append]
  · intro hpay hx
    apply formCondition_in_query
    simp [formConditions, hpay, hx, List.mem_append]
  · intro hlen
    simp only [buildFormQuery]
    rw [if_pos hlen]
    have h1 : jsIncludes (formBase t f ++ " WHERE " ++ jsJoin " AND " (formConditions t f))
        " WHERE " = true := by
      apply jsIncludes_append_right
      exact jsIncludes_append_left _ _ _ (jsIncludes_self _)
    repeat
      first
        | exact h1
        | apply jsIncludes_append_right
  · intro hempty
    simp [buildFormQuery, hempty]
  · refine ⟨if (formConditions t f).length > 0 then
        formBase t f ++ " WHERE " ++ jsJoin " AND " (formConditions t f)
      else formBase t f, ?_⟩
    simp only [buildFormQuery, String.data_append, List.append_assoc]

/-- The filter set used by the C8 witness. -/
def wFilters : FormFilters := { status := "success", hostUserId := "7" }

/-- C8 witness at a payments table with two set filters. -/
theorem formBuilder_structure_witness :
    (formConditions "payments_fdw" wFilters).length = 2 ∧
    jsIncludes (buildFormQuery "payments_fdw" wFilters)
      (formTablePfx "payments_fdw" wFilters ++ "status = '" ++ wFilters.status ++ "'") = true ∧
    jsIncludes (buildFormQuery "payments_fdw" wFilters) " WHERE " = true := by
  refine ⟨?_, ?_, ?_⟩
  · have h := (formBuilder_structure "payments_fdw" wFilters).1 (by decide)
    simpa using h
  · exact (formBuilder_structure "payments_fdw" wFilters).2.2.1 (by decide) (by decide)
  · exact (formBuilder_structure "payments_fdw" wFilters).2.2.2.2.2.2.2.2.2.1 (by decide)
